import Mathlib

/-!
Shallow embedding of the auth-api service (Express + Mongoose CRUD over
User and Task collections, `src/index.js`, `src/models/task.js`,
`src/unnamed/part_000`).  Each HTTP handler becomes a pure function from
a request body and the database state to a response and a new state.
The external collaborators (the Mongo/mongoose driver and the bcryptjs
hasher) are not part of the repository source; where their behaviour
decides a claim they are modelled from the specification, as noted on
the individual definitions.
-/

namespace AuthApi

/-- JavaScript truthiness of a string-valued request-body field:
`undefined` (absent) and the empty string are falsy, every other string
is truthy.  This is the meaning of `if (!fullName) ...` in the handlers. -/
def truthy : Option String → Bool
  | none => false
  | some s => s != ""

/-- A persisted User document, fields as in `UserSchema` (src/index.js
lines 25-30): fullName, email, passwordHash required, role defaulted. -/
structure User where
  id : String
  fullName : String
  email : String
  passwordHash : String
  role : String
deriving DecidableEq

/-- A persisted Task document, fields as in `TaskSchema`
(src/models/task.js): title and userId required, description optional,
status defaulted to Pending. -/
structure Task where
  id : String
  title : String
  description : Option String
  status : String
  userId : String
deriving DecidableEq

/-- The persistent store: the two collections, plus the sources of
freshness that the external store supplies (new ObjectIds for `_id`,
new random salts for bcrypt).  The counters model the store handing out
a fresh value on every write. -/
structure DB where
  users : List User
  tasks : List Task
  nextId : Nat
  nextSalt : Nat
deriving DecidableEq

/-- The empty store. -/
def dbEmpty : DB := ⟨[], [], 0, 0⟩

/-- Request body for the user routes: the four fields the handlers
destructure from `req.body` (`const { fullName, email, password, role }`).
`none` models an absent field. -/
structure ReqBody where
  fullName : Option String
  email : Option String
  password : Option String
  role : Option String
deriving DecidableEq

/-- Request body for the task routes
(`const { title, description, status, userId }`). -/
structure TaskReqBody where
  title : Option String
  description : Option String
  status : Option String
  userId : Option String
deriving DecidableEq

/-- A JSON response body: either a message object, a single serialized
document, or an array of serialized documents. -/
inductive Body where
  | msg (m : String)
  | doc (fields : List (String × String))
  | docs (ds : List (List (String × String)))
deriving DecidableEq

/-- An HTTP response: status code and JSON body. -/
structure Response where
  status : Nat
  body : Body
deriving DecidableEq

/-- Hexadecimal digit character for a value below 16 (lowercase). -/
def hexDigit (n : Nat) : Char :=
  if n < 10 then Char.ofNat (48 + n) else Char.ofNat (97 + (n - 10))

/-- Is this character a hexadecimal digit? -/
def isHexDigit (c : Char) : Bool :=
  (48 ≤ c.toNat && c.toNat ≤ 57) || (97 ≤ c.toNat && c.toNat ≤ 102) ||
    (65 ≤ c.toNat && c.toNat ≤ 70)

/-- Little-endian list of `k` hex digit characters of `n`. -/
def hexChars : Nat → Nat → List Char
  | 0, _ => []
  | k + 1, n => hexDigit (n % 16) :: hexChars k (n / 16)

/-- Modelled from the spec: the store-assigned unique identifier
(a Mongo ObjectId, rendered as 24 hex characters) handed out at
creation; the argument is the freshness counter of the store. -/
def mkId (n : Nat) : String := String.mk (hexChars 24 n)

/-- Is the string a well-formed store identifier (24 hex characters,
the shape of a Mongo ObjectId)? -/
def validObjectId (s : String) : Bool :=
  s.data.length == 24 && s.data.all isHexDigit

/-- Modelled from the spec: the bcryptjs credential hasher
(`bcrypt.hash(password, 10)`, an external collaborator).  Per spec
section 4.2 it produces a salted one-way digest: a fresh salt per call,
so the same plaintext hashed under different salts yields different
digests, and a digest is never the plaintext itself.  The model encodes
the salt in the digest length after a fixed-work-factor prefix. -/
def bcryptHash (salt : Nat) (plaintext : String) : String :=
  String.mk (List.replicate (salt + 8) '$') ++ plaintext

/-- Modelled from the spec (section 4.3): `User.findById(id)` at the
driver boundary.  A malformed identifier yields NotFound just like a
well-formed identifier naming no record; a well-formed identifier is
looked up by `_id` equality. -/
def findUserById (s : String) (db : DB) : Option User :=
  if validObjectId s then db.users.find? (fun u => u.id == s) else none

/-- Modelled from the spec (section 4.3): `Task.findById(id)`,
identical shape to the User lookup. -/
def findTaskById (s : String) (db : DB) : Option Task :=
  if validObjectId s then db.tasks.find? (fun t => t.id == s) else none

/-- Mongoose serialization of a User document in a JSON response:
every schema path is emitted, passwordHash included (the schema declares
no projection or transform). -/
def serializeUser (u : User) : List (String × String) :=
  [("_id", u.id), ("fullName", u.fullName), ("email", u.email),
   ("passwordHash", u.passwordHash), ("role", u.role)]

/-- Mongoose serialization of a Task document; an absent description
path is omitted. -/
def serializeTask (t : Task) : List (String × String) :=
  [("_id", t.id), ("title", t.title)] ++
    (match t.description with | none => [] | some d => [("description", d)]) ++
    [("status", t.status), ("userId", t.userId)]

/-- POST /api/auth/signup (src/index.js lines 34-54): reject falsy
fullName, email or password with 400; reject an existing email with
409; otherwise hash the password, save a new User (role defaulted by
the schema) and answer 201. -/
def signup (r : ReqBody) (db : DB) : Response × DB :=
  if !truthy r.fullName || !truthy r.email || !truthy r.password then
    (⟨400, .msg "All fields are required"⟩, db)
  else
    let email := r.email.getD ""
    if (db.users.find? (fun u => u.email == email)).isSome then
      (⟨409, .msg "User already exists"⟩, db)
    else
      let hashed := bcryptHash db.nextSalt (r.password.getD "")
      let newUser : User :=
        { id := mkId db.nextId, fullName := r.fullName.getD "",
          email := email, passwordHash := hashed, role := "User" }
      (⟨201, .msg "User registered successfully"⟩,
       { db with users := db.users ++ [newUser],
                 nextId := db.nextId + 1, nextSalt := db.nextSalt + 1 })

/-- POST /api/users (src/index.js lines 57-77): same as signup except
the role field is read from the body and passed to the schema, which
defaults an absent role to User. -/
def createUser (r : ReqBody) (db : DB) : Response × DB :=
  if !truthy r.fullName || !truthy r.email || !truthy r.password then
    (⟨400, .msg "All fields are required"⟩, db)
  else
    let email := r.email.getD ""
    if (db.users.find? (fun u => u.email == email)).isSome then
      (⟨409, .msg "User already exists"⟩, db)
    else
      let hashed := bcryptHash db.nextSalt (r.password.getD "")
      let newUser : User :=
        { id := mkId db.nextId, fullName := r.fullName.getD "",
          email := email, passwordHash := hashed,
          role := (match r.role with | none => "User" | some ro => ro) }
      (⟨201, .msg "User created successfully"⟩,
       { db with users := db.users ++ [newUser],
                 nextId := db.nextId + 1, nextSalt := db.nextSalt + 1 })

/-- GET /api/users (src/index.js lines 80-88): 200 with every stored
User serialized in full. -/
def getUsers (db : DB) : Response × DB :=
  (⟨200, .docs (db.users.map serializeUser)⟩, db)

/-- GET /api/users/:id (src/index.js lines 91-100): 404 when the lookup
finds nothing, else 200 with the serialized document. -/
def getUserById (s : String) (db : DB) : Response × DB :=
  match findUserById s db with
  | none => (⟨404, .msg "User not found"⟩, db)
  | some u => (⟨200, .doc (serializeUser u)⟩, db)

/-- DELETE /api/users/:id (src/index.js lines 123-134): fetch by id
first; 404 when absent, otherwise remove the document (the store keeps
`_id` unique, so removal by `_id` is modelled as filtering it out) and
answer 200. -/
def deleteUser (s : String) (db : DB) : Response × DB :=
  match findUserById s db with
  | none => (⟨404, .msg "User not found"⟩, db)
  | some u =>
    (⟨200, .msg "User deleted successfully"⟩,
     { db with users := db.users.filter (fun v => !(v.id == u.id)) })

/-- POST /api/tasks (src/unnamed/part_000 lines 313-329): reject falsy
title or userId with 400; otherwise save the Task (status defaulted to
Pending by the schema) and answer 201.  No check that userId names an
existing User is performed. -/
def createTask (r : TaskReqBody) (db : DB) : Response × DB :=
  if !truthy r.title || !truthy r.userId then
    (⟨400, .msg "Title and User ID are required"⟩, db)
  else
    let newTask : Task :=
      { id := mkId db.nextId, title := r.title.getD "",
        description := r.description,
        status := (match r.status with | none => "Pending" | some st => st),
        userId := r.userId.getD "" }
    (⟨201, .msg "Task created successfully"⟩,
     { db with tasks := db.tasks ++ [newTask], nextId := db.nextId + 1 })

/-- GET /api/tasks/:id (src/unnamed/part_000 lines 343-352): 404 when
the lookup finds nothing, else 200 with the serialized document. -/
def getTaskById (s : String) (db : DB) : Response × DB :=
  match findTaskById s db with
  | none => (⟨404, .msg "Task not found"⟩, db)
  | some t => (⟨200, .doc (serializeTask t)⟩, db)

/-- The field merge of PUT /api/tasks/:id (src/unnamed/part_000 lines
361-364): each truthy body field overwrites the stored field, every
other stored field is kept (`if (title) task.title = title;` and so on). -/
def mergeTask (r : TaskReqBody) (t : Task) : Task :=
  let t1 := if truthy r.title then { t with title := r.title.getD "" } else t
  let t2 := if truthy r.description then
      { t1 with description := some (r.description.getD "") } else t1
  let t3 := if truthy r.status then { t2 with status := r.status.getD "" } else t2
  if truthy r.userId then { t3 with userId := r.userId.getD "" } else t3

/-- PUT /api/tasks/:id (src/unnamed/part_000 lines 355-372): fetch by
id first; 404 when absent, otherwise merge the truthy body fields into
the document, save it back and answer 200. -/
def updateTask (s : String) (r : TaskReqBody) (db : DB) : Response × DB :=
  match findTaskById s db with
  | none => (⟨404, .msg "Task not found"⟩, db)
  | some t =>
    (⟨200, .msg "Task updated successfully"⟩,
     { db with tasks :=
        db.tasks.map (fun x => if x.id == t.id then mergeTask r t else x) })

/-- Concrete User fixture for witnesses. -/
def u0 : User := ⟨mkId 0, "Ada Lovelace", "ada@example.com", bcryptHash 0 "secret1", "User"⟩

/-- Store holding exactly the fixture User. -/
def db0 : DB := ⟨[u0], [], 1, 1⟩

/-- Concrete Task fixture for witnesses. -/
def t0 : Task := ⟨mkId 5, "Write report", some "first draft", "Pending", mkId 0⟩

/-- Store holding exactly the fixture Task. -/
def dbT : DB := ⟨[], [t0], 6, 0⟩

/-! Helper lemmas shared by the claim theorems. -/

theorem find?_email_none {l : List User} {e : String}
    (h : ∀ u ∈ l, u.email ≠ e) : l.find? (fun u => u.email == e) = none :=
  List.find?_eq_none.mpr (fun u hu => by simp [h u hu])

theorem find?_id_none {l : List User} {s : String}
    (h : ∀ u ∈ l, u.id ≠ s) : l.find? (fun u => u.id == s) = none :=
  List.find?_eq_none.mpr (fun u hu => by simp [h u hu])

theorem signup_success (r : ReqBody) (db : DB)
    (hf : truthy r.fullName = true) (he : truthy r.email = true)
    (hp : truthy r.password = true)
    (hfresh : db.users.find? (fun u => u.email == r.email.getD "") = none) :
    signup r db =
      (⟨201, .msg "User registered successfully"⟩,
       { db with
          users := db.users ++
            [⟨mkId db.nextId, r.fullName.getD "", r.email.getD "",
              bcryptHash db.nextSalt (r.password.getD ""), "User"⟩],
          nextId := db.nextId + 1, nextSalt := db.nextSalt + 1 }) := by
  simp [signup, hf, he, hp, hfresh]

theorem signup_conflict (r : ReqBody) (db : DB)
    (hf : truthy r.fullName = true) (he : truthy r.email = true)
    (hp : truthy r.password = true)
    (hhit : (db.users.find? (fun u => u.email == r.email.getD "")).isSome = true) :
    signup r db = (⟨409, .msg "User already exists"⟩, db) := by
  simp [signup, hf, he, hp, hhit]

theorem createUser_success (r : ReqBody) (db : DB)
    (hf : truthy r.fullName = true) (he : truthy r.email = true)
    (hp : truthy r.password = true)
    (hfresh : db.users.find? (fun u => u.email == r.email.getD "") = none) :
    createUser r db =
      (⟨201, .msg "User created successfully"⟩,
       { db with
          users := db.users ++
            [⟨mkId db.nextId, r.fullName.getD "", r.email.getD "",
              bcryptHash db.nextSalt (r.password.getD ""),
              (match r.role with | none => "User" | some ro => ro)⟩],
          nextId := db.nextId + 1, nextSalt := db.nextSalt + 1 }) := by
  simp [createUser, hf, he, hp, hfresh]

theorem bcryptHash_ne_of_salt_ne {s1 s2 : Nat} (pw : String) (h : s1 ≠ s2) :
    bcryptHash s1 pw ≠ bcryptHash s2 pw := by
  intro hc
  have hl := congrArg String.length hc
  simp [bcryptHash] at hl
  omega

theorem bcryptHash_ne_plaintext (s : Nat) (pw : String) :
    bcryptHash s pw ≠ pw := by
  intro hc
  have hl := congrArg String.length hc
  simp [bcryptHash] at hl

theorem length_hexChars (k n : Nat) : (hexChars k n).length = k := by
  induction k generalizing n with
  | zero => rfl
  | succ k ih => simp [hexChars, ih]

theorem isHexDigit_hexDigit {m : Nat} (h : m < 16) :
    isHexDigit (hexDigit m) = true := by
  interval_cases m <;> decide

theorem all_isHexDigit_hexChars (k n : Nat) :
    (hexChars k n).all isHexDigit = true := by
  induction k generalizing n with
  | zero => rfl
  | succ k ih =>
    simp [hexChars, ih, isHexDigit_hexDigit (Nat.mod_lt n (by decide))]

theorem validObjectId_mkId (n : Nat) : validObjectId (mkId n) = true := by
  simp [validObjectId, mkId, length_hexChars, all_isHexDigit_hexChars]

theorem mergeTask_fields (r : TaskReqBody) (t : Task) :
    (mergeTask r t).id = t.id ∧
    (mergeTask r t).title = (if truthy r.title then r.title.getD "" else t.title) ∧
    (mergeTask r t).description =
      (if truthy r.description then some (r.description.getD "")
       else t.description) ∧
    (mergeTask r t).status =
      (if truthy r.status then r.status.getD "" else t.status) ∧
    (mergeTask r t).userId =
      (if truthy r.userId then r.userId.getD "" else t.userId) := by
  unfold mergeTask
  cases truthy r.title <;> cases truthy r.description <;>
    cases truthy r.status <;> cases truthy r.userId <;> simp

/-! Claim theorems. -/

/-- C1: for every POST /api/auth/signup or POST /api/users request in
which fullName, email, or password is missing or empty (falsy), the
handler responds 400 and no User record is persisted: the store is
returned unchanged. -/
theorem c1_missing_field_gives_400_and_no_write (r : ReqBody) (db : DB)
    (h : truthy r.fullName = false ∨ truthy r.email = false ∨
      truthy r.password = false) :
    signup r db = (⟨400, .msg "All fields are required"⟩, db) ∧
    createUser r db = (⟨400, .msg "All fields are required"⟩, db) := by
  rcases h with h | h | h <;> constructor <;> simp [signup, createUser, h]

/-- C1 witness: a concrete signup and create request with a missing
fullName answer 400 and leave the empty store empty. -/
theorem c1_witness :
    signup ⟨none, some "ada@example.com", some "secret1", none⟩ dbEmpty =
      (⟨400, .msg "All fields are required"⟩, dbEmpty) ∧
    createUser ⟨none, some "ada@example.com", some "secret1", none⟩ dbEmpty =
      (⟨400, .msg "All fields are required"⟩, dbEmpty) :=
  c1_missing_field_gives_400_and_no_write _ _ (Or.inl (by decide))

/-- C2: two sequential signup requests with identical email and all
required fields present, against a store with no User of that email:
the first answers 201 and appends exactly one User, the second answers
409 and leaves the store unchanged, and afterwards exactly one User
with that email exists. -/
theorem c2_duplicate_email_signup_conflict (r1 r2 : ReqBody) (db : DB)
    (h1f : truthy r1.fullName = true) (h1e : truthy r1.email = true)
    (h1p : truthy r1.password = true)
    (h2f : truthy r2.fullName = true) (h2e : truthy r2.email = true)
    (h2p : truthy r2.password = true)
    (heq : r2.email = r1.email)
    (hfresh : ∀ u ∈ db.users, u.email ≠ r1.email.getD "") :
    (signup r1 db).1.status = 201 ∧
    ∃ u1 : User,
      (signup r1 db).2.users = db.users ++ [u1] ∧
      u1.email = r1.email.getD "" ∧
      signup r2 (signup r1 db).2 =
        (⟨409, .msg "User already exists"⟩, (signup r1 db).2) ∧
      ((signup r2 (signup r1 db).2).2.users.filter
        (fun u => u.email == r1.email.getD "")).length = 1 := by
  have hnone := find?_email_none hfresh
  have h1 := signup_success r1 db h1f h1e h1p hnone
  refine ⟨by rw [h1], ⟨mkId db.nextId, r1.fullName.getD "", r1.email.getD "",
    bcryptHash db.nextSalt (r1.password.getD ""), "User"⟩, by rw [h1], rfl, ?_, ?_⟩
  · have h2 := signup_conflict r2 (signup r1 db).2 h2f h2e h2p (by
      rw [h1]
      simp [heq, hnone])
    rw [h2]
  · have h2 := signup_conflict r2 (signup r1 db).2 h2f h2e h2p (by
      rw [h1]
      simp [heq, hnone])
    rw [h2, h1]
    have hnil : db.users.filter (fun u => u.email == r1.email.getD "") = [] :=
      List.filter_eq_nil_iff.mpr (fun u hu => by simp [hfresh u hu])
    simp [List.filter_append, hnil]

/-- C2 witness: two concrete signups with the same email against the
empty store answer 201 then 409 and leave exactly one matching User. -/
theorem c2_witness :
    (signup ⟨some "Ada Lovelace", some "ada@example.com", some "secret1", none⟩
      dbEmpty).1.status = 201 ∧
    ∃ u1 : User,
      (signup ⟨some "Ada Lovelace", some "ada@example.com", some "secret1", none⟩
        dbEmpty).2.users = dbEmpty.users ++ [u1] ∧
      u1.email = (some "ada@example.com").getD "" ∧
      signup ⟨some "Bob Byron", some "ada@example.com", some "hunter2", none⟩
        ((signup ⟨some "Ada Lovelace", some "ada@example.com", some "secret1", none⟩
          dbEmpty).2) =
        (⟨409, .msg "User already exists"⟩,
         (signup ⟨some "Ada Lovelace", some "ada@example.com", some "secret1", none⟩
           dbEmpty).2) ∧
      ((signup ⟨some "Bob Byron", some "ada@example.com", some "hunter2", none⟩
        ((signup ⟨some "Ada Lovelace", some "ada@example.com", some "secret1", none⟩
          dbEmpty).2)).2.users.filter
        (fun u => u.email == (some "ada@example.com").getD "")).length = 1 :=
  c2_duplicate_email_signup_conflict _ _ dbEmpty (by decide) (by decide)
    (by decide) (by decide) (by decide) (by decide) rfl (by decide)

/-- C3: for every id-keyed read, a malformed identifier yields the same
404 response as a well-formed identifier naming no record — never a
distinct validation error. -/
theorem c3_malformed_id_yields_404 (s : String) (db : DB) :
    (validObjectId s = false →
      getUserById s db = (⟨404, .msg "User not found"⟩, db) ∧
      getTaskById s db = (⟨404, .msg "Task not found"⟩, db)) ∧
    (validObjectId s = true →
      db.users.find? (fun u => u.id == s) = none →
      getUserById s db = (⟨404, .msg "User not found"⟩, db)) ∧
    (validObjectId s = true →
      db.tasks.find? (fun t => t.id == s) = none →
      getTaskById s db = (⟨404, .msg "Task not found"⟩, db)) := by
  refine ⟨fun h => ⟨?_, ?_⟩, fun hv hn => ?_, fun hv hn => ?_⟩
  · simp [getUserById, findUserById, h]
  · simp [getTaskById, findTaskById, h]
  · simp [getUserById, findUserById, hv, hn]
  · simp [getTaskById, findTaskById, hv, hn]

/-- C3 witness: the malformed id zzz and the well-formed but unused id
mkId 7 both answer 404 on the empty store. -/
theorem c3_witness :
    (getUserById "zzz" dbEmpty = (⟨404, .msg "User not found"⟩, dbEmpty) ∧
     getTaskById "zzz" dbEmpty = (⟨404, .msg "Task not found"⟩, dbEmpty)) ∧
    getUserById (mkId 7) dbEmpty = (⟨404, .msg "User not found"⟩, dbEmpty) :=
  ⟨(c3_malformed_id_yields_404 "zzz" dbEmpty).1 (by decide),
   (c3_malformed_id_yields_404 (mkId 7) dbEmpty).2.1 (validObjectId_mkId 7) rfl⟩

/-- C4: PUT /api/tasks/:id on an existing Task overwrites exactly the
truthy body fields: falsy (absent or empty) fields leave the stored
field unchanged, truthy fields overwrite it, the id is never changed,
and a body carrying only status Done updates status alone. -/
theorem c4_update_task_truthy_merge (s : String) (r : TaskReqBody)
    (db : DB) (t : Task) (h : findTaskById s db = some t) :
    updateTask s r db =
      (⟨200, .msg "Task updated successfully"⟩,
       { db with tasks :=
          db.tasks.map (fun x => if x.id == t.id then mergeTask r t else x) }) ∧
    (truthy r.title = false → (mergeTask r t).title = t.title) ∧
    (truthy r.description = false →
      (mergeTask r t).description = t.description) ∧
    (truthy r.status = false → (mergeTask r t).status = t.status) ∧
    (truthy r.userId = false → (mergeTask r t).userId = t.userId) ∧
    (truthy r.title = true → (mergeTask r t).title = r.title.getD "") ∧
    (truthy r.description = true →
      (mergeTask r t).description = some (r.description.getD "")) ∧
    (truthy r.status = true → (mergeTask r t).status = r.status.getD "") ∧
    (truthy r.userId = true → (mergeTask r t).userId = r.userId.getD "") ∧
    (mergeTask r t).id = t.id ∧
    mergeTask ⟨none, none, some "Done", none⟩ t = { t with status := "Done" } := by
  obtain ⟨hid, hti, hde, hst, hus⟩ := mergeTask_fields r t
  refine ⟨by simp [updateTask, h], ?_, ?_, ?_, ?_, ?_, ?_, ?_, ?_, hid, rfl⟩
  · intro hx; rw [hti, hx]; simp
  · intro hx; rw [hde, hx]; simp
  · intro hx; rw [hst, hx]; simp
  · intro hx; rw [hus, hx]; simp
  · intro hx; rw [hti, hx]; simp
  · intro hx; rw [hde, hx]; simp
  · intro hx; rw [hst, hx]; simp
  · intro hx; rw [hus, hx]; simp

/-- C4 witness: updating the fixture Task with a body holding only
status Done answers 200 and merges only the status field. -/
theorem c4_witness :
    updateTask (mkId 5) ⟨none, none, some "Done", none⟩ dbT =
      (⟨200, .msg "Task updated successfully"⟩,
       { dbT with tasks := dbT.tasks.map (fun x =>
          if x.id == t0.id then mergeTask ⟨none, none, some "Done", none⟩ t0
          else x) }) ∧
    (truthy (none : Option String) = false →
      (mergeTask ⟨none, none, some "Done", none⟩ t0).title = t0.title) ∧
    (truthy (none : Option String) = false →
      (mergeTask ⟨none, none, some "Done", none⟩ t0).description = t0.description) ∧
    (truthy (some "Done") = false →
      (mergeTask ⟨none, none, some "Done", none⟩ t0).status = t0.status) ∧
    (truthy (none : Option String) = false →
      (mergeTask ⟨none, none, some "Done", none⟩ t0).userId = t0.userId) ∧
    (truthy (none : Option String) = true →
      (mergeTask ⟨none, none, some "Done", none⟩ t0).title =
        (none : Option String).getD "") ∧
    (truthy (none : Option String) = true →
      (mergeTask ⟨none, none, some "Done", none⟩ t0).description =
        some ((none : Option String).getD "")) ∧
    (truthy (some "Done") = true →
      (mergeTask ⟨none, none, some "Done", none⟩ t0).status =
        (some "Done").getD "") ∧
    (truthy (none : Option String) = true →
      (mergeTask ⟨none, none, some "Done", none⟩ t0).userId =
        (none : Option String).getD "") ∧
    (mergeTask ⟨none, none, some "Done", none⟩ t0).id = t0.id ∧
    mergeTask ⟨none, none, some "Done", none⟩ t0 = { t0 with status := "Done" } :=
  c4_update_task_truthy_merge (mkId 5) ⟨none, none, some "Done", none⟩ dbT t0
    (by decide)

/-- C5: two successful signups with the same plaintext password store
two different passwordHash values (a fresh salt per call), and neither
stored digest equals the plaintext. -/
theorem c5_same_password_different_digests (r1 r2 : ReqBody) (db : DB)
    (h1f : truthy r1.fullName = true) (h1e : truthy r1.email = true)
    (h1p : truthy r1.password = true)
    (h2f : truthy r2.fullName = true) (h2e : truthy r2.email = true)
    (h2p : truthy r2.password = true)
    (hpw : r2.password = r1.password)
    (hfresh1 : db.users.find? (fun u => u.email == r1.email.getD "") = none)
    (hfresh2 : (signup r1 db).2.users.find?
      (fun u => u.email == r2.email.getD "") = none) :
    ∃ u1 u2 : User,
      (signup r1 db).2.users = db.users ++ [u1] ∧
      (signup r2 (signup r1 db).2).2.users = db.users ++ [u1, u2] ∧
      u1.passwordHash ≠ u2.passwordHash ∧
      u1.passwordHash ≠ r1.password.getD "" ∧
      u2.passwordHash ≠ r1.password.getD "" := by
  have h1 := signup_success r1 db h1f h1e h1p hfresh1
  have h2 := signup_success r2 (signup r1 db).2 h2f h2e h2p hfresh2
  refine ⟨⟨mkId db.nextId, r1.fullName.getD "", r1.email.getD "",
      bcryptHash db.nextSalt (r1.password.getD ""), "User"⟩,
    ⟨mkId (db.nextId + 1), r2.fullName.getD "", r2.email.getD "",
      bcryptHash (db.nextSalt + 1) (r2.password.getD ""), "User"⟩,
    by rw [h1], ?_, ?_, ?_, ?_⟩
  · rw [h2, h1]
    simp
  · show bcryptHash db.nextSalt (r1.password.getD "") ≠
      bcryptHash (db.nextSalt + 1) (r2.password.getD "")
    rw [hpw]
    exact bcryptHash_ne_of_salt_ne _ (by omega)
  · exact bcryptHash_ne_plaintext _ _
  · show bcryptHash (db.nextSalt + 1) (r2.password.getD "") ≠ r1.password.getD ""
    rw [hpw]
    exact bcryptHash_ne_plaintext _ _

/-- C5 witness: two concrete signups with distinct fresh emails and the
same password secret1 against the empty store yield two stored Users
whose digests differ from each other and from the plaintext. -/
theorem c5_witness :
    ∃ u1 u2 : User,
      (signup ⟨some "Ada Lovelace", some "ada@example.com", some "secret1", none⟩
        dbEmpty).2.users = dbEmpty.users ++ [u1] ∧
      (signup ⟨some "Cy Hopper", some "cy@example.com", some "secret1", none⟩
        ((signup ⟨some "Ada Lovelace", some "ada@example.com", some "secret1", none⟩
          dbEmpty).2)).2.users = dbEmpty.users ++ [u1, u2] ∧
      u1.passwordHash ≠ u2.passwordHash ∧
      u1.passwordHash ≠ (some "secret1").getD "" ∧
      u2.passwordHash ≠ (some "secret1").getD "" :=
  c5_same_password_different_digests _ _ dbEmpty (by decide) (by decide)
    (by decide) (by decide) (by decide) (by decide) rfl (by decide) (by decide)

/-- C6: after a valid POST /api/users with role omitted against a store
with a fresh email and a fresh next id, GET /api/users/:id with the
assigned id answers 200 with the submitted fullName and email, the
server-assigned id and the default role User; GET with any well-formed
id naming no record answers 404. -/
theorem c6_create_then_get_roundtrip (r : ReqBody) (db : DB)
    (hf : truthy r.fullName = true) (he : truthy r.email = true)
    (hp : truthy r.password = true) (hrole : r.role = none)
    (hfresh : db.users.find? (fun u => u.email == r.email.getD "") = none)
    (hid : ∀ u ∈ db.users, u.id ≠ mkId db.nextId) :
    (createUser r db).1.status = 201 ∧
    (∃ u : User,
      findUserById (mkId db.nextId) (createUser r db).2 = some u ∧
      getUserById (mkId db.nextId) (createUser r db).2 =
        (⟨200, .doc (serializeUser u)⟩, (createUser r db).2) ∧
      u.id = mkId db.nextId ∧ u.fullName = r.fullName.getD "" ∧
      u.email = r.email.getD "" ∧ u.role = "User") ∧
    (∀ s, validObjectId s = true →
      (createUser r db).2.users.find? (fun u => u.id == s) = none →
      getUserById s (createUser r db).2 =
        (⟨404, .msg "User not found"⟩, (createUser r db).2)) := by
  have h1 := createUser_success r db hf he hp hfresh
  rw [hrole] at h1
  have hn := find?_id_none hid
  have hfind : findUserById (mkId db.nextId) (createUser r db).2 =
      some ⟨mkId db.nextId, r.fullName.getD "", r.email.getD "",
        bcryptHash db.nextSalt (r.password.getD ""), "User"⟩ := by
    rw [h1]
    simp [findUserById, validObjectId_mkId, hn]
  refine ⟨by rw [h1], ⟨⟨mkId db.nextId, r.fullName.getD "", r.email.getD "",
      bcryptHash db.nextSalt (r.password.getD ""), "User"⟩, hfind,
      by simp [getUserById, hfind], rfl, rfl, rfl, rfl⟩, ?_⟩
  intro s hv hns
  simp [getUserById, findUserById, hv, hns]

/-- C6 witness: a concrete create against the empty store, read back at
the assigned id and at the unused well-formed id mkId 7. -/
theorem c6_witness :
    (createUser ⟨some "Cy Hopper", some "cy@example.com", some "secret1", none⟩
      dbEmpty).1.status = 201 ∧
    (∃ u : User,
      findUserById (mkId dbEmpty.nextId)
        (createUser ⟨some "Cy Hopper", some "cy@example.com", some "secret1", none⟩
          dbEmpty).2 = some u ∧
      getUserById (mkId dbEmpty.nextId)
        (createUser ⟨some "Cy Hopper", some "cy@example.com", some "secret1", none⟩
          dbEmpty).2 =
        (⟨200, .doc (serializeUser u)⟩,
         (createUser ⟨some "Cy Hopper", some "cy@example.com", some "secret1", none⟩
           dbEmpty).2) ∧
      u.id = mkId dbEmpty.nextId ∧
      u.fullName = (some "Cy Hopper").getD "" ∧
      u.email = (some "cy@example.com").getD "" ∧ u.role = "User") ∧
    getUserById (mkId 7)
      (createUser ⟨some "Cy Hopper", some "cy@example.com", some "secret1", none⟩
        dbEmpty).2 =
      (⟨404, .msg "User not found"⟩,
       (createUser ⟨some "Cy Hopper", some "cy@example.com", some "secret1", none⟩
         dbEmpty).2) :=
  ⟨(c6_create_then_get_roundtrip _ dbEmpty (by decide) (by decide) (by decide)
      rfl rfl (by decide)).1,
   (c6_create_then_get_roundtrip _ dbEmpty (by decide) (by decide) (by decide)
      rfl rfl (by decide)).2.1,
   (c6_create_then_get_roundtrip _ dbEmpty (by decide) (by decide) (by decide)
      rfl rfl (by decide)).2.2 (mkId 7) (validObjectId_mkId 7) (by decide)⟩

/-- C7: DELETE /api/users/:id answers 404 and leaves the store
unchanged when the lookup finds nothing; when it finds a record it
answers 200 and removes it, and a second DELETE of the same id then
answers 404 without touching the store again. -/
theorem c7_delete_then_delete_again (s : String) (db : DB) :
    (findUserById s db = none →
      deleteUser s db = (⟨404, .msg "User not found"⟩, db)) ∧
    (∀ u, findUserById s db = some u →
      (deleteUser s db).1 = ⟨200, .msg "User deleted successfully"⟩ ∧
      (deleteUser s db).2.users = db.users.filter (fun v => !(v.id == u.id)) ∧
      deleteUser s (deleteUser s db).2 =
        (⟨404, .msg "User not found"⟩, (deleteUser s db).2)) := by
  constructor
  · intro h
    simp [deleteUser, h]
  · intro u h
    have hvalid : validObjectId s = true := by
      cases hb : validObjectId s with
      | false => rw [findUserById, if_neg (by simp [hb])] at h; exact absurd h (by simp)
      | true => rfl
    have hfind : db.users.find? (fun v => v.id == s) = some u := by
      rw [findUserById, if_pos (by simp [hvalid])] at h
      exact h
    have hus : u.id = s := by
      have := List.find?_some hfind
      simpa using this
    have h200 : deleteUser s db =
        (⟨200, .msg "User deleted successfully"⟩,
         { db with users := db.users.filter (fun v => !(v.id == u.id)) }) := by
      simp [deleteUser, h]
    have hnone : findUserById s
        { db with users := db.users.filter (fun v => !(v.id == u.id)) } = none := by
      rw [findUserById, if_pos (by simp [hvalid])]
      apply List.find?_eq_none.mpr
      intro x hx
      have hq := (List.mem_filter.mp hx).2
      rw [← hus]
      simpa using hq
    refine ⟨by rw [h200], by rw [h200], ?_⟩
    rw [h200]
    simp [deleteUser, hnone]

/-- C7 witness: deleting at mkId 0 on the empty store answers 404;
deleting the fixture User answers 200, and deleting again answers 404. -/
theorem c7_witness :
    deleteUser (mkId 0) dbEmpty = (⟨404, .msg "User not found"⟩, dbEmpty) ∧
    ((deleteUser (mkId 0) db0).1 = ⟨200, .msg "User deleted successfully"⟩ ∧
     (deleteUser (mkId 0) db0).2.users =
       db0.users.filter (fun v => !(v.id == u0.id)) ∧
     deleteUser (mkId 0) (deleteUser (mkId 0) db0).2 =
       (⟨404, .msg "User not found"⟩, (deleteUser (mkId 0) db0).2)) :=
  ⟨(c7_delete_then_delete_again (mkId 0) dbEmpty).1 (by decide),
   (c7_delete_then_delete_again (mkId 0) db0).2 u0 (by decide)⟩

/-- C8: POST /api/tasks with truthy title and userId answers 201 and
persists the Task even when no User with that id exists in the store:
the handler performs no referential check on userId. -/
theorem c8_task_create_ignores_user_existence (r : TaskReqBody) (db : DB)
    (ht : truthy r.title = true) (hu : truthy r.userId = true)
    (hnouser : ∀ u ∈ db.users, u.id ≠ r.userId.getD "") :
    createTask r db =
      (⟨201, .msg "Task created successfully"⟩,
       { db with
          tasks := db.tasks ++
            [⟨mkId db.nextId, r.title.getD "", r.description,
              (match r.status with | none => "Pending" | some st => st),
              r.userId.getD ""⟩],
          nextId := db.nextId + 1 }) := by
  simp [createTask, ht, hu]

/-- C8 witness: creating a Task pointing at the unused id mkId 9 in a
store whose only User has id mkId 0 still answers 201 and persists. -/
theorem c8_witness :
    createTask ⟨some "New report", none, none, some (mkId 9)⟩ db0 =
      (⟨201, .msg "Task created successfully"⟩,
       { db0 with
          tasks := db0.tasks ++
            [⟨mkId db0.nextId, (some "New report").getD "",
              (none : Option String),
              (match (none : Option String) with
                | none => "Pending" | some st => st),
              (some (mkId 9)).getD ""⟩],
          nextId := db0.nextId + 1 }) :=
  c8_task_create_ignores_user_existence _ db0 (by decide) (by decide) (by decide)

/-- C9: the signup handler never reads the role field: a request body
carrying any role produces exactly the same outcome, and a successful
signup always stores a User whose role is the schema default User. -/
theorem c9_signup_ignores_role (r : ReqBody) (db : DB)
    (hf : truthy r.fullName = true) (he : truthy r.email = true)
    (hp : truthy r.password = true)
    (hfresh : db.users.find? (fun u => u.email == r.email.getD "") = none) :
    (∀ ro : Option String, signup { r with role := ro } db = signup r db) ∧
    ∃ u : User, (signup r db).2.users = db.users ++ [u] ∧ u.role = "User" := by
  constructor
  · intro ro
    rfl
  · have h1 := signup_success r db hf he hp hfresh
    exact ⟨⟨mkId db.nextId, r.fullName.getD "", r.email.getD "",
      bcryptHash db.nextSalt (r.password.getD ""), "User"⟩, by rw [h1], rfl⟩

/-- C9 witness: a concrete signup whose body carries role Admin stores
a User with role User all the same. -/
theorem c9_witness :
    (∀ ro : Option String,
      signup { (⟨some "Eve Moneypenny", some "eve@example.com", some "pw123",
        some "Admin"⟩ : ReqBody) with role := ro } dbEmpty =
      signup ⟨some "Eve Moneypenny", some "eve@example.com", some "pw123",
        some "Admin"⟩ dbEmpty) ∧
    ∃ u : User,
      (signup ⟨some "Eve Moneypenny", some "eve@example.com", some "pw123",
        some "Admin"⟩ dbEmpty).2.users = dbEmpty.users ++ [u] ∧
      u.role = "User" :=
  c9_signup_ignores_role _ dbEmpty (by decide) (by decide) (by decide) rfl

/-- C10: GET /api/users serializes every stored User in full and GET
/api/users/:id serializes the found User in full; the serialization
always carries the passwordHash field, so every successful read exposes
the stored credential digest. -/
theorem c10_reads_expose_passwordHash (db : DB) (s : String) (u : User) :
    getUsers db = (⟨200, .docs (db.users.map serializeUser)⟩, db) ∧
    ("passwordHash", u.passwordHash) ∈ serializeUser u ∧
    (findUserById s db = some u →
      getUserById s db = (⟨200, .doc (serializeUser u)⟩, db)) := by
  refine ⟨rfl, by simp [serializeUser], fun h => by simp [getUserById, h]⟩

/-- C10 witness: reading the fixture store exposes the stored digest of
the fixture User in both the collection read and the single read. -/
theorem c10_witness :
    getUsers db0 = (⟨200, .docs (db0.users.map serializeUser)⟩, db0) ∧
    ("passwordHash", u0.passwordHash) ∈ serializeUser u0 ∧
    getUserById (mkId 0) db0 = (⟨200, .doc (serializeUser u0)⟩, db0) :=
  ⟨(c10_reads_expose_passwordHash db0 (mkId 0) u0).1,
   (c10_reads_expose_passwordHash db0 (mkId 0) u0).2.1,
   (c10_reads_expose_passwordHash db0 (mkId 0) u0).2.2 (by decide)⟩

end AuthApi
